import Mathlib

/-!
# Verification of the gustyweather environmental monitoring core

Shallow embedding of the monitoring control loop of the gustyweather
repository and proofs about it:

* `MonitoringService` (src/backend/services/monitoring.service.ts):
  threshold evaluation (`checkConditions`), the per-tick pipeline of
  `startMonitoring`, actuator reconciliation (`updateOutputs`), the metric
  registry (`initializeMetrics`, `updateMetrics`) and `getAlerts`;
* `KitronikService` (src/backend/services/kitronik.service.ts): the four
  actuator entry points `updateDisplay`, `setLEDPattern`,
  `setHighPowerOutput`, `setServoPosition` and their `outputStatus` updates;
* `src/backend/utils/errorHandling.ts`: `createRetryableOperation` /
  `withRetry` and the sliding-window `rateLimit`.

Conventions of the embedding:

* Sensor values and thresholds are modelled as rationals (`ℚ`); the source
  works with JS numbers and only compares, adds and divides them, which the
  rational model reflects for all non-NaN inputs.
* Alert message strings are elided: an alert is identified by its `type`
  and `level` fields, which the message only restates with formatting.
* Fallible external calls (sensor read, OLED / LED / relay / servo driver
  calls, the rate limiter's storage query) are modelled by explicit outcome
  parameters: the embedding of a function is a pure function of the state
  and of the outcomes of the external calls it makes.
* Timestamps are integers (milliseconds, as `Date.now()`).
-/

namespace Gusty

/-- The fields of a `SensorReading` consumed by the monitoring service
(src/backend/types, used by monitoring.service.ts). -/
structure SensorReading where
  temperature : ℚ
  humidity : ℚ
  pressure : ℚ
  airQualityIndex : ℚ
  deriving Repr, DecidableEq

/-- A min/max range, as in `MonitoringThresholds.temperature` etc. -/
structure MinMax where
  min : ℚ
  max : ℚ
  deriving Repr, DecidableEq

/-- The air-quality thresholds `{ poor, hazardous }` of
`MonitoringThresholds` (monitoring.service.ts:37-40). -/
structure AirQualityThresholds where
  poor : ℚ
  hazardous : ℚ
  deriving Repr, DecidableEq

/-- Embeds `MonitoringThresholds` as held by the service (monitoring.service.ts:33-41). -/
structure MonitoringThresholds where
  temperature : MinMax
  humidity : MinMax
  pressure : MinMax
  airQuality : AirQualityThresholds
  deriving Repr, DecidableEq

/-- The `type` field of a `WeatherAlert` produced by `checkConditions`. -/
inductive AlertType
  | temperature
  | humidity
  | airQuality
  deriving Repr, DecidableEq

/-- The `level` field of a `WeatherAlert`.  `checkConditions` only emits
`warning` and `danger`; `info` appears in the LED colour mapping of
`updateOutputs` (monitoring.service.ts:231) and is included for fidelity. -/
inductive AlertLevel
  | warning
  | danger
  | info
  deriving Repr, DecidableEq

/-- A `WeatherAlert` (message string elided, see the header). -/
structure WeatherAlert where
  type : AlertType
  level : AlertLevel
  deriving Repr, DecidableEq

/-- The threshold configuration installed by the constructor
(monitoring.service.ts:33-41). -/
def defaultThresholds : MonitoringThresholds :=
  { temperature := { min := 15, max := 30 }
    humidity := { min := 30, max := 70 }
    pressure := { min := 980, max := 1020 }
    airQuality := { poor := 60, hazardous := 30 } }

/-- Embeds `MonitoringService.checkConditions` (monitoring.service.ts:164-208):
temperature `< min` pushes a warning, else `> max` pushes a danger;
humidity outside `[min, max]` pushes a warning; airQualityIndex
`< hazardous` pushes a danger, else `< poor` pushes a warning.  The three
field checks run in this order on the same list. -/
def checkConditions (th : MonitoringThresholds) (data : SensorReading) :
    List WeatherAlert :=
  (if data.temperature < th.temperature.min then
    [⟨AlertType.temperature, AlertLevel.warning⟩]
  else if data.temperature > th.temperature.max then
    [⟨AlertType.temperature, AlertLevel.danger⟩]
  else [])
  ++ (if data.humidity < th.humidity.min ∨ data.humidity > th.humidity.max then
    [⟨AlertType.humidity, AlertLevel.warning⟩]
  else [])
  ++ (if data.airQualityIndex < th.airQuality.hazardous then
    [⟨AlertType.airQuality, AlertLevel.danger⟩]
  else if data.airQualityIndex < th.airQuality.poor then
    [⟨AlertType.airQuality, AlertLevel.warning⟩]
  else [])

/-- The reference rules of the spec's Threshold Evaluator (spec §4.2),
written from the spec's words for comparison with `checkConditions`:
`temperature < min → warning`; `temperature > max → danger`; `humidity
outside [min,max] → warning` (one alert); `airQuality < hazardousBelow →
danger; else if < poorBelow → warning`; fields in the fixed order
temperature, humidity, airQuality. -/
def specAlerts (th : MonitoringThresholds) (data : SensorReading) :
    List WeatherAlert :=
  (if data.temperature < th.temperature.min then
    [⟨AlertType.temperature, AlertLevel.warning⟩]
  else [])
  ++ (if data.temperature > th.temperature.max then
    [⟨AlertType.temperature, AlertLevel.danger⟩]
  else [])
  ++ (if data.humidity < th.humidity.min ∨ data.humidity > th.humidity.max then
    [⟨AlertType.humidity, AlertLevel.warning⟩]
  else [])
  ++ (if data.airQualityIndex < th.airQuality.hazardous then
    [⟨AlertType.airQuality, AlertLevel.danger⟩]
  else if data.airQualityIndex < th.airQuality.poor then
    [⟨AlertType.airQuality, AlertLevel.warning⟩]
  else [])

/-! ## KitronikService actuator layer (kitronik.service.ts) -/

/-- Embeds `OutputStatus` (kitronik.service.ts:15-21), the actuator-state record of
`KitronikService`.  The `lastUpdate` timestamp string is elided. -/
structure OutputStatus where
  displayActive : Bool
  ledsActive : Bool
  highPowerState : List Bool
  servoPositions : List ℤ
  deriving Repr, DecidableEq

/-- The `outputStatus` the constructor installs (kitronik.service.ts:64-70). -/
def initialOutputStatus : OutputStatus :=
  { displayActive := false
    ledsActive := false
    highPowerState := [false, false, false, false]
    servoPositions := [0, 0] }

/-- One `LEDPattern` entry as consumed by `setLEDPattern`. -/
structure LEDPattern where
  index : ℤ
  r : ℤ
  g : ℤ
  b : ℤ
  deriving Repr, DecidableEq

/-- Embeds `KitronikService.isValidLEDPattern` (kitronik.service.ts:406-415):
index in `[0, 8)`, each channel an integer in `[0, 255]` (integrality is
automatic in the `ℤ` model). -/
def isValidLEDPattern (p : LEDPattern) : Bool :=
  decide (0 ≤ p.index) && decide (p.index < 8) &&
  decide (0 ≤ p.r) && decide (p.r ≤ 255) &&
  decide (0 ≤ p.g) && decide (p.g ≤ 255) &&
  decide (0 ≤ p.b) && decide (p.b ≤ 255)

/-- Embeds `KitronikService.updateDisplay` (kitronik.service.ts:304-329).
`hwOk` is the outcome of the OLED driver calls.  On success the method sets
`displayActive := true`; its catch handler sets `displayActive := false`
and rethrows (`Failed to update display`).  Result: new state and a success
flag (`false` = the call threw). -/
def updateDisplay (hwOk : Bool) (s : OutputStatus) : OutputStatus × Bool :=
  if hwOk then ({ s with displayActive := true }, true)
  else ({ s with displayActive := false }, false)

/-- Embeds `KitronikService.setLEDPattern` (kitronik.service.ts:386-404).  Each
entry is validated (`isValidLEDPattern`, invalid throws) and written to the
LED driver (`hwOk` is the driver outcome).  On success the method sets
`ledsActive := true`; its catch handler sets `ledsActive := false`, clears
the strip and rethrows. -/
def setLEDPattern (hwOk : Bool) (pattern : List LEDPattern) (s : OutputStatus) :
    OutputStatus × Bool :=
  if pattern.all isValidLEDPattern && hwOk then
    ({ s with ledsActive := true }, true)
  else
    ({ s with ledsActive := false }, false)

/-- Embeds `KitronikService.setHighPowerOutput` (kitronik.service.ts:417-435).
An index outside `[0, 4)` throws before any state change; a driver failure
(`hwOk = false`) throws with the state unchanged (the catch handler only
logs and rethrows); on success `highPowerState[index] := state`. -/
def setHighPowerOutput (hwOk : Bool) (index : ℤ) (state : Bool)
    (s : OutputStatus) : OutputStatus × Bool :=
  if index < 0 ∨ 4 ≤ index then (s, false)
  else if hwOk then
    ({ s with highPowerState := s.highPowerState.set index.toNat state }, true)
  else (s, false)

/-- Embeds `KitronikService.setServoPosition` (kitronik.service.ts:437-453).
An index outside `[0, 2)` or an angle outside `[0, 180]` throws before any
state change; a driver failure throws with the state unchanged; on success
`servoPositions[index] := angle`. -/
def setServoPosition (hwOk : Bool) (index : ℤ) (angle : ℤ)
    (s : OutputStatus) : OutputStatus × Bool :=
  if index < 0 ∨ 2 ≤ index then (s, false)
  else if angle < 0 ∨ 180 < angle then (s, false)
  else if hwOk then
    ({ s with servoPositions := s.servoPositions.set index.toNat angle }, true)
  else (s, false)

/-! ## The actuator reconciliation of a tick (`updateOutputs`) -/

/-- The four physical actuators addressed by `updateOutputs`. -/
inductive Actuator
  | display
  | led
  | relay
  | servo
  deriving Repr, DecidableEq

/-- Hardware outcomes of the four actuator drivers during one tick. -/
structure ActuatorEnv where
  displayOk : Bool
  ledOk : Bool
  relayOk : Bool
  servoOk : Bool
  deriving Repr, DecidableEq

/-- The LED patterns `updateOutputs` builds from the alert list
(monitoring.service.ts:228-233): one entry per alert at its position, red
channel 255 for `danger` and `warning`, green channel 255 for `info`. -/
def ledPatternsOfAlerts (alerts : List WeatherAlert) : List LEDPattern :=
  alerts.enum.map fun p =>
    { index := (p.1 : ℤ)
      r := if p.2.level = AlertLevel.danger then 255
           else if p.2.level = AlertLevel.warning then 255 else 0
      g := if p.2.level = AlertLevel.info then 255 else 0
      b := 0 }

/-- The servo angle of a tick (monitoring.service.ts:243):
`Math.round((humidity / 100) * 180)`. -/
def servoAngle (data : SensorReading) : ℤ :=
  round (data.humidity / 100 * 180)

/-- Result of one `updateOutputs` call: the kitronik state after the call,
the actuator calls that were started (in order), and whether the catch
handler emitted an `error` event.  The method returns normally in every
case (it catches internally and never rethrows). -/
structure UpdateOutputsResult where
  state : OutputStatus
  attempted : List Actuator
  errorEmitted : Bool
  deriving Repr, DecidableEq

/-- Embeds `MonitoringService.updateOutputs` (monitoring.service.ts:210-248).
One `try` block runs, in order: the display write, the LED write, the relay
write (only when an airQuality alert is present: `setHighPowerOutput(0,
true)`), and the servo write (`setServoPosition(0, servoAngle)`).  The
first throw jumps to the single catch handler, which emits one `error`
event; later calls are then never started. -/
def updateOutputs (env : ActuatorEnv) (alerts : List WeatherAlert)
    (data : SensorReading) (s : OutputStatus) : UpdateOutputsResult :=
  let d := updateDisplay env.displayOk s
  if !d.2 then ⟨d.1, [Actuator.display], true⟩ else
  let l := setLEDPattern env.ledOk (ledPatternsOfAlerts alerts) d.1
  if !l.2 then ⟨l.1, [Actuator.display, Actuator.led], true⟩ else
  if alerts.any (fun a => a.type = AlertType.airQuality) then
    let r := setHighPowerOutput env.relayOk 0 true l.1
    if !r.2 then ⟨r.1, [Actuator.display, Actuator.led, Actuator.relay], true⟩ else
    let v := setServoPosition env.servoOk 0 (servoAngle data) r.1
    ⟨v.1, [Actuator.display, Actuator.led, Actuator.relay, Actuator.servo], !v.2⟩
  else
    let v := setServoPosition env.servoOk 0 (servoAngle data) l.1
    ⟨v.1, [Actuator.display, Actuator.led, Actuator.servo], !v.2⟩

/-- The sequence of actuator calls the `try` block of `updateOutputs` would
start if nothing threw: the relay write is in the plan only when an
airQuality alert is present. -/
def actuatorPlan (alerts : List WeatherAlert) : List Actuator :=
  if alerts.any (fun a => a.type = AlertType.airQuality) then
    [Actuator.display, Actuator.led, Actuator.relay, Actuator.servo]
  else
    [Actuator.display, Actuator.led, Actuator.servo]

/-- Whether each individual actuator call of a tick succeeds, as a function
of the driver outcomes and the call arguments `updateOutputs` passes. -/
def callOk (env : ActuatorEnv) (alerts : List WeatherAlert)
    (data : SensorReading) : Actuator → Bool
  | Actuator.display => env.displayOk
  | Actuator.led => (ledPatternsOfAlerts alerts).all isValidLEDPattern && env.ledOk
  | Actuator.relay => env.relayOk
  | Actuator.servo =>
      !decide (servoAngle data < 0 ∨ 180 < servoAngle data) && env.servoOk

/-- The prefix of a call plan actually started when calls run sequentially
in one `try` block: everything up to and including the first failing call. -/
def takeThroughFailure (ok : Actuator → Bool) : List Actuator → List Actuator
  | [] => []
  | a :: rest => if ok a then a :: takeThroughFailure ok rest else [a]

/-! ## Retry executor (errorHandling.ts: `createRetryableOperation`, `withRetry`) -/

/-- One run of the retry loop: the final outcome (`Except.error none` is
the `throw lastError` with `lastError` still `undefined`, reachable only
for `maxRetries = 0`; `Except.error (some e)` is a thrown error `e`), the
number of times the wrapped operation was invoked, and the waits performed
(in ms, in order). -/
structure RetryRun (E A : Type) where
  result : Except (Option E) A
  calls : ℕ
  delays : List ℕ

/-- The retry loop of `createRetryableOperation` (errorHandling.ts:205-222),
with the operation modelled as the outcome `op k` of its `k`-th invocation
(`k` counts from 1).  `attempt` is the loop counter, `remaining` the number
of iterations left (`maxRetries - attempt + 1`); the guard
`attempt === maxRetries` is `remaining = 1`.  On a caught error `e`: if the
loop is on its last iteration or `shouldRetry e` is false, `e` is thrown;
otherwise the loop waits `delayMs * attempt` and retries. -/
def retryGo (op : ℕ → Except E A) (shouldRetry : E → Bool) (delayMs : ℕ) :
    (attempt remaining : ℕ) → RetryRun E A
  | _, 0 => ⟨Except.error none, 0, []⟩
  | attempt, r + 1 =>
    match op attempt with
    | Except.ok a => ⟨Except.ok a, 1, []⟩
    | Except.error e =>
      if r = 0 || !shouldRetry e then ⟨Except.error (some e), 1, []⟩
      else
        let rest := retryGo op shouldRetry delayMs (attempt + 1) r
        ⟨rest.result, rest.calls + 1, delayMs * attempt :: rest.delays⟩

/-- Embeds `createRetryableOperation` (errorHandling.ts:195-224): run the retry
loop from attempt 1 with `maxRetries` iterations available. -/
def createRetryableOperation (op : ℕ → Except E A) (shouldRetry : E → Bool)
    (delayMs maxRetries : ℕ) : RetryRun E A :=
  retryGo op shouldRetry delayMs 1 maxRetries

/-- Embeds `withRetry` (errorHandling.ts:119-141): the same loop without an error
classifier — every error is retried until the budget is exhausted. -/
def withRetry (op : ℕ → Except E A) (delayMs maxRetries : ℕ) : RetryRun E A :=
  retryGo op (fun _ => true) delayMs 1 maxRetries

/-! ## Sliding-window rate limiter (errorHandling.ts: `rateLimit`) -/

/-- The pure body of `rateLimit` (errorHandling.ts:148-181) for one key:
`entries` are the stored timestamps, `now` the call time.  The storage
query (`orderByChild.startAt(windowStart)`) returns the entries with
timestamp `≥ now - windowMs`; if at least `limit` of them exist the call is
denied and nothing is written, otherwise `now` is pushed and the "cleanup"
removes the queried entries with timestamp `< windowStart` (none, since the
query already filtered — the stored set is in fact never pruned).  Result:
the resolved boolean and the stored timestamps after the call. -/
def rateLimit (entries : List ℤ) (limit : ℕ) (windowMs now : ℤ) :
    Bool × List ℤ :=
  let windowStart := now - windowMs
  let requests := entries.filter fun t => decide (windowStart ≤ t)
  if limit ≤ requests.length then (false, entries)
  else
    let afterPush := entries ++ [now]
    let toRemove := requests.filter fun t => decide (t < windowStart)
    (true, afterPush.filter fun t => !toRemove.contains t)

/-- Embeds `rateLimit` with its outermost `try`/`catch` (errorHandling.ts:148-186):
the storage query may itself fail, in which case the catch handler logs and
resolves `true` (fail open); the promise never rejects. -/
def rateLimitRun (queryResult : Except Unit (List ℤ)) (limit : ℕ)
    (windowMs now : ℤ) : Bool :=
  match queryResult with
  | Except.error _ => true
  | Except.ok entries => (rateLimit entries limit windowMs now).1

/-! ## Loop controller state (`startMonitoring` / `stopMonitoring`) -/

/-- Scheduling state of `MonitoringService`: whether `monitoringInterval`
is set, and how many `setInterval` callback bodies are currently in flight
(each callback is `async`; an `await` inside it does not block the timer,
so several bodies can be pending at once). -/
structure LoopState where
  intervalActive : Bool
  ticksInFlight : ℕ
  deriving Repr, DecidableEq

/-- Scheduling events of the monitoring loop. -/
inductive LoopEvent
  | startCall
  | timerFire
  | tickComplete
  | stopCall
  deriving Repr, DecidableEq

/-- The scheduling step of `MonitoringService` (monitoring.service.ts:
126-162).  `startMonitoring` throws `Monitoring already active` when the
interval is set (state unchanged) and otherwise installs it; each timer
fire while the interval is active starts a callback body unconditionally —
the source callback (line 133) checks no in-flight flag; `stopMonitoring`
clears the interval.  `tickComplete` records a body finishing. -/
def loopStep (s : LoopState) : LoopEvent → LoopState
  | LoopEvent.startCall =>
      if s.intervalActive then s else { s with intervalActive := true }
  | LoopEvent.timerFire =>
      if s.intervalActive then { s with ticksInFlight := s.ticksInFlight + 1 }
      else s
  | LoopEvent.tickComplete => { s with ticksInFlight := s.ticksInFlight - 1 }
  | LoopEvent.stopCall => { s with intervalActive := false }

/-- Run a sequence of scheduling events. -/
def loopRun (s : LoopState) : List LoopEvent → LoopState
  | [] => s
  | e :: es => loopRun (loopStep s e) es

/-- The metric names `initializeMetrics` registers
(monitoring.service.ts:47-123) — the complete registry of the service. -/
def registeredMetricNames : List String :=
  ["kitronik_readings_total",
   "kitronik_reading_errors_total",
   "kitronik_temperature_celsius",
   "kitronik_humidity_percent",
   "kitronik_pressure_hpa",
   "kitronik_air_quality_index",
   "kitronik_reading_duration_seconds",
   "kitronik_device_errors_total",
   "kitronik_active_devices",
   "kitronik_alerts_triggered_total"]

/-- Character-list prefix test (kernel-computable helper). -/
def chPrefix : List Char → List Char → Bool
  | [], _ => true
  | _ :: _, [] => false
  | a :: as, b :: bs => a == b && chPrefix as bs

/-- Character-list substring test (kernel-computable helper). -/
def chSubstr (needle : List Char) : List Char → Bool
  | [] => chPrefix needle []
  | b :: bs => chPrefix needle (b :: bs) || chSubstr needle bs

/-! ## The per-tick pipeline (`startMonitoring`'s interval callback) -/

/-- The mutable fields of `MonitoringService` a tick touches: the stored
alert batch, the threshold snapshot, and the metric values `updateMetrics`
maintains (monitoring.service.ts:250-258).  `readingErrors` is the
`kitronik_reading_errors_total` counter; gauges are `none` until first set. -/
structure MonState where
  thresholds : MonitoringThresholds
  alerts : List WeatherAlert
  readingsTotal : ℕ
  readingErrors : ℕ
  tempGauge : Option ℚ
  humGauge : Option ℚ
  presGauge : Option ℚ
  airGauge : Option ℚ
  deriving Repr, DecidableEq

/-- The service state right after the constructor ran. -/
def initialMonState : MonState :=
  { thresholds := defaultThresholds
    alerts := []
    readingsTotal := 0
    readingErrors := 0
    tempGauge := none
    humGauge := none
    presGauge := none
    airGauge := none }

/-- The events one interval callback emits. -/
structure TickEvents where
  readingEmitted : Option SensorReading
  alertsEmitted : Option (List WeatherAlert)
  errorEmitted : Bool
  deriving Repr, DecidableEq

/-- Result of one interval callback: the service state, the kitronik
actuator state, and the emitted events. -/
structure TickResult where
  mon : MonState
  out : OutputStatus
  events : TickEvents
  deriving Repr, DecidableEq

/-- Embeds `MonitoringService.updateMetrics` (monitoring.service.ts:250-258):
increments `readingsTotal` and sets the four gauges; no other metric is
touched (in particular `readingErrors` is incremented nowhere in the
source). -/
def updateMetrics (data : SensorReading) (m : MonState) : MonState :=
  { m with
    readingsTotal := m.readingsTotal + 1
    tempGauge := some data.temperature
    humGauge := some data.humidity
    presGauge := some data.pressure
    airGauge := some data.airQualityIndex }

/-- The body of the interval callback of `startMonitoring`
(monitoring.service.ts:133-153).  `sensorResult` is the outcome of
`getEnvironmentalData()`; on a throw the outer catch handler emits one
`error` event and nothing else happens (no alert computation, no actuation,
no metric update — the catch body is only the `emit`).  On a successful
read: alerts are computed and stored, `reading` (and `alerts`, when
non-empty) events are emitted, `updateOutputs` runs (catching its own
failures), then `updateMetrics`. -/
def tick (sensorResult : Except Unit SensorReading) (env : ActuatorEnv)
    (m : MonState) (o : OutputStatus) : TickResult :=
  match sensorResult with
  | Except.error _ =>
      ⟨m, o, { readingEmitted := none, alertsEmitted := none, errorEmitted := true }⟩
  | Except.ok data =>
      let alerts := checkConditions m.thresholds data
      let m1 := { m with alerts := alerts }
      let r := updateOutputs env alerts data o
      let m2 := updateMetrics data m1
      ⟨m2, r.state,
        { readingEmitted := some data
          alertsEmitted := if alerts.length > 0 then some alerts else none
          errorEmitted := r.errorEmitted }⟩

/-- Embeds `MonitoringService.getAlerts` (monitoring.service.ts:260-262): returns
a copy of the stored batch (copy semantics are implicit in the functional
model). -/
def getAlerts (m : MonState) : List WeatherAlert :=
  m.alerts

/-! ## Concrete scenario inputs used by closed theorems -/

/-- A tick environment where only the display driver fails. -/
def envDisplayFail : ActuatorEnv := ⟨false, true, true, true⟩

/-- A tick environment where every driver succeeds. -/
def envAllOk : ActuatorEnv := ⟨true, true, true, true⟩

/-- A nominal reading, strictly inside every default range. -/
def readingNominal : SensorReading :=
  { temperature := 20, humidity := 50, pressure := 1000, airQualityIndex := 80 }

/-- An actuator state in which every component is visibly "on". -/
def busyOutputStatus : OutputStatus :=
  { displayActive := true
    ledsActive := true
    highPowerState := [true, true, true, true]
    servoPositions := [90, 90] }

/-- First tick of the C9 scenario: a successful read of `readingNominal`
with all actuators healthy, from the constructor state. -/
def c9FirstTick : TickResult :=
  tick (Except.ok readingNominal) envAllOk initialMonState initialOutputStatus

/-- Second tick of the C9 scenario: the sensor read fails. -/
def c9SecondTick : TickResult :=
  tick (Except.error ()) envAllOk c9FirstTick.mon c9FirstTick.out

/-- An operation whose first invocation fails with a retryable error and
whose second fails with a non-retryable one. -/
def c5Op : ℕ → Except String Unit :=
  fun j => if j = 1 then Except.error "transient" else Except.error "fatal"

/-- The classifier for `c5Op`: everything but `fatal` is retryable. -/
def c5Retryable : String → Bool :=
  fun e => !(e == "fatal")

/-- An operation that fails with the same error on every invocation. -/
def c6Op : ℕ → Except String Unit :=
  fun _ => Except.error "boom"

/-! ## Theorems -/

/-- A guarded `if/else-if` over an ordered range agrees with the two
independent rules as long as the range is well-formed (`lo ≤ hi`), because
the two conditions are then mutually exclusive. -/
theorem ite_lt_gt_split (x lo hi : ℚ) (h : lo ≤ hi) (w d : WeatherAlert) :
    (if x < lo then [w] else if x > hi then [d] else []) =
    (if x < lo then [w] else []) ++ (if x > hi then [d] else []) := by
  split_ifs with h1 h2
  · exact absurd h (by push_neg; exact lt_trans h2 h1)
  · simp
  · simp
  · simp

/-- C1 (amended): for well-formed threshold ranges, `checkConditions`
returns exactly the alerts of the spec's reference rules in the fixed field
order temperature, humidity, airQuality; a reading exactly at `min`, `max`
or `poorBelow` produces no alert for that field; but a reading exactly at
`hazardousBelow` (with `hazardousBelow < poorBelow`) produces the
airQuality *warning* alert — the `< hazardousBelow` test fails and the
`< poorBelow` test fires — rather than no alert. -/
theorem checkConditions_matches_spec (th : MonitoringThresholds)
    (data : SensorReading)
    (ht : th.temperature.min ≤ th.temperature.max)
    (hh : th.humidity.min ≤ th.humidity.max)
    (ha : th.airQuality.hazardous ≤ th.airQuality.poor) :
    checkConditions th data = specAlerts th data
    ∧ ((data.temperature = th.temperature.min ∨
        data.temperature = th.temperature.max) →
        (checkConditions th data).filter
          (fun a => a.type = AlertType.temperature) = [])
    ∧ ((data.humidity = th.humidity.min ∨ data.humidity = th.humidity.max) →
        (checkConditions th data).filter
          (fun a => a.type = AlertType.humidity) = [])
    ∧ (data.airQualityIndex = th.airQuality.poor →
        (checkConditions th data).filter
          (fun a => a.type = AlertType.airQuality) = [])
    ∧ (data.airQualityIndex = th.airQuality.hazardous →
        th.airQuality.hazardous < th.airQuality.poor →
        (checkConditions th data).filter
          (fun a => a.type = AlertType.airQuality)
          = [⟨AlertType.airQuality, AlertLevel.warning⟩]) := by
  refine ⟨?_, ?_, ?_, ?_, ?_⟩
  · simp only [checkConditions, specAlerts,
      ite_lt_gt_split data.temperature th.temperature.min th.temperature.max ht,
      List.append_assoc]
  · intro hb
    have h1 : ¬ data.temperature < th.temperature.min := by
      rcases hb with h | h
      · simp [h]
      · rw [h]; exact not_lt.mpr ht
    have h2 : ¬ data.temperature > th.temperature.max := by
      rcases hb with h | h
      · rw [h]; exact not_lt.mpr ht
      · simp [h]
    simp only [checkConditions, if_neg h1, if_neg h2]
    split_ifs <;> decide
  · intro hb
    have h3 : ¬ (data.humidity < th.humidity.min ∨
        data.humidity > th.humidity.max) := by
      rcases hb with h | h
      · rw [h]; push_neg; exact ⟨le_refl _, not_lt.mp (not_lt.mpr hh)⟩
      · rw [h]; push_neg; exact ⟨hh, le_refl _⟩
    simp only [checkConditions, if_neg h3]
    split_ifs <;> decide
  · intro hb
    have h4 : ¬ data.airQualityIndex < th.airQuality.hazardous := by
      rw [hb]; exact not_lt.mpr ha
    have h5 : ¬ data.airQualityIndex < th.airQuality.poor := by
      rw [hb]; exact lt_irrefl _
    simp only [checkConditions, if_neg h4, if_neg h5]
    split_ifs <;> decide
  · intro hb hlt
    have h4 : ¬ data.airQualityIndex < th.airQuality.hazardous := by
      rw [hb]; exact lt_irrefl _
    have h5 : data.airQualityIndex < th.airQuality.poor := by
      rw [hb]; exact hlt
    simp only [checkConditions, if_neg h4, if_pos h5]
    split_ifs <;> decide

/-- Witness for C1 at the constructor's thresholds and the spec's §8
scenario reading `{temperature 35, humidity 50, airQuality 80}`. -/
theorem checkConditions_matches_spec_witness :
    defaultThresholds.temperature.min ≤ defaultThresholds.temperature.max
    ∧ checkConditions defaultThresholds
        { temperature := 35, humidity := 50, pressure := 1000, airQualityIndex := 80 }
      = specAlerts defaultThresholds
        { temperature := 35, humidity := 50, pressure := 1000, airQualityIndex := 80 } :=
  ⟨by decide,
   (checkConditions_matches_spec defaultThresholds
     { temperature := 35, humidity := 50, pressure := 1000, airQualityIndex := 80 }
     (by decide) (by decide) (by decide)).1⟩

/-- C1 counterexample to the claim as stated: with the constructor's
thresholds (`hazardousBelow = 30`), a reading whose airQualityIndex is
exactly `30` — equal to its `hazardousBelow` boundary — produces an
airQuality warning alert, not "no alert for that field". -/
theorem checkConditions_hazardous_boundary_ctrex :
    defaultThresholds.airQuality.hazardous = 30
    ∧ (checkConditions defaultThresholds
        { temperature := 20, humidity := 50, pressure := 1000, airQualityIndex := 30 }).filter
        (fun a => a.type = AlertType.airQuality)
      = [⟨AlertType.airQuality, AlertLevel.warning⟩] := by
  decide

/-- C2 counterexample to the claim as stated: in a tick where only the
display driver fails (and an airQuality alert makes all four writes due),
`updateOutputs` starts only the display call — the LED, relay and servo
writes are never attempted — and reports the failure through a single
emitted `error` event, not an error list. -/
theorem updateOutputs_display_failure_ctrex :
    (updateOutputs envDisplayFail [⟨AlertType.airQuality, AlertLevel.warning⟩]
        readingNominal initialOutputStatus).attempted = [Actuator.display]
    ∧ Actuator.led ∉ (updateOutputs envDisplayFail
        [⟨AlertType.airQuality, AlertLevel.warning⟩]
        readingNominal initialOutputStatus).attempted
    ∧ Actuator.servo ∉ (updateOutputs envDisplayFail
        [⟨AlertType.airQuality, AlertLevel.warning⟩]
        readingNominal initialOutputStatus).attempted
    ∧ (updateOutputs envDisplayFail [⟨AlertType.airQuality, AlertLevel.warning⟩]
        readingNominal initialOutputStatus).errorEmitted = true := by
  decide

/-- C2 (amended): `updateOutputs` runs the actuator writes sequentially in
one `try` block — display, LED, relay (the latter only when an airQuality
alert is present), servo — so the calls actually started are the planned
sequence up to and including the first failing call; the method never
throws, and it signals failure by emitting a single `error` event exactly
when some planned call fails, rather than returning an error list. -/
theorem relay_index_zero_valid : ¬((0:ℤ) < 0 ∨ 4 ≤ (0:ℤ)) := by decide

theorem servo_index_zero_valid : ¬((0:ℤ) < 0 ∨ 2 ≤ (0:ℤ)) := by decide

theorem updateOutputs_sequential (env : ActuatorEnv) (alerts : List WeatherAlert)
    (data : SensorReading) (s : OutputStatus) :
    (updateOutputs env alerts data s).attempted
      = takeThroughFailure (callOk env alerts data) (actuatorPlan alerts)
    ∧ (updateOutputs env alerts data s).errorEmitted
      = !((actuatorPlan alerts).all (callOk env alerts data)) := by
  obtain ⟨d, l, r, v⟩ := env
  cases hpv : (ledPatternsOfAlerts alerts).all isValidLEDPattern <;>
  cases haq : alerts.any (fun a => a.type = AlertType.airQuality) <;>
  by_cases hsv : servoAngle data < 0 ∨ 180 < servoAngle data <;>
  cases d <;> cases l <;> cases r <;> cases v <;>
  simp [updateOutputs, updateDisplay, setLEDPattern, setHighPowerOutput,
    setServoPosition, actuatorPlan, callOk, takeThroughFailure, hpv, haq, hsv,
    relay_index_zero_valid, servo_index_zero_valid]

/-- C3 counterexample to the claim as stated: a failed display write on a
state whose `displayActive` is `true` leaves `displayActive = false` — the
catch handler of `updateDisplay` actively clears the flag instead of
retaining the previous value. -/
theorem updateDisplay_failure_resets_flag_ctrex :
    busyOutputStatus.displayActive = true
    ∧ (updateDisplay false busyOutputStatus).1.displayActive = false := by
  decide

/-- C3 (amended): on a failed actuator call, the relay and servo components
of `outputStatus` do retain their previous values, but the display and LED
components are actively set to `false` by the respective catch handlers;
and a successful call updates only its own component — the display call
sets `displayActive`, the LED call sets `ledsActive`, the relay call sets
`highPowerState[index]` and the servo call sets `servoPositions[index]`,
each leaving every other field of the previous state unchanged (the
structure-update form of each conclusion states exactly this frame). -/
theorem actuator_failure_components (s : OutputStatus) (hw : Bool)
    (pats : List LEDPattern) (idx : ℤ) (st : Bool) (ang : ℤ) :
    (((updateDisplay false s).1 = { s with displayActive := false }
        ∧ (updateDisplay false s).2 = false)
      ∧ ((updateDisplay true s).1 = { s with displayActive := true }
        ∧ (updateDisplay true s).2 = true))
    ∧ (((setLEDPattern hw pats s).2 = false →
          (setLEDPattern hw pats s).1 = { s with ledsActive := false })
      ∧ ((setLEDPattern hw pats s).2 = true →
          (setLEDPattern hw pats s).1 = { s with ledsActive := true }))
    ∧ (((setHighPowerOutput hw idx st s).2 = false →
          (setHighPowerOutput hw idx st s).1 = s)
      ∧ ((setHighPowerOutput hw idx st s).2 = true →
          (setHighPowerOutput hw idx st s).1
            = { s with highPowerState := s.highPowerState.set idx.toNat st }))
    ∧ (((setServoPosition hw idx ang s).2 = false →
          (setServoPosition hw idx ang s).1 = s)
      ∧ ((setServoPosition hw idx ang s).2 = true →
          (setServoPosition hw idx ang s).1
            = { s with servoPositions := s.servoPositions.set idx.toNat ang })) := by
  refine ⟨⟨⟨rfl, rfl⟩, ⟨rfl, rfl⟩⟩, ⟨?_, ?_⟩, ⟨?_, ?_⟩, ⟨?_, ?_⟩⟩
  · intro h
    by_cases hc : pats.all isValidLEDPattern && hw
    · simp [setLEDPattern, hc] at h
    · simp [setLEDPattern, hc]
  · intro h
    by_cases hc : pats.all isValidLEDPattern && hw
    · simp [setLEDPattern, hc]
    · simp [setLEDPattern, hc] at h
  · intro h
    by_cases h1 : idx < 0 ∨ 4 ≤ idx
    · simp [setHighPowerOutput, h1]
    · by_cases h2 : hw
      · simp [setHighPowerOutput, h1, h2] at h
      · simp [setHighPowerOutput, h1, h2]
  · intro h
    by_cases h1 : idx < 0 ∨ 4 ≤ idx
    · simp [setHighPowerOutput, h1] at h
    · by_cases h2 : hw
      · simp [setHighPowerOutput, h1, h2]
      · simp [setHighPowerOutput, h1, h2] at h
  · intro h
    by_cases h1 : idx < 0 ∨ 2 ≤ idx
    · simp [setServoPosition, h1]
    · by_cases h2 : ang < 0 ∨ 180 < ang
      · simp [setServoPosition, h1, h2]
      · by_cases h3 : hw
        · simp [setServoPosition, h1, h2, h3] at h
        · simp [setServoPosition, h1, h2, h3]
  · intro h
    by_cases h1 : idx < 0 ∨ 2 ≤ idx
    · simp [setServoPosition, h1] at h
    · by_cases h2 : ang < 0 ∨ 180 < ang
      · simp [setServoPosition, h1, h2] at h
      · by_cases h3 : hw
        · simp [setServoPosition, h1, h2, h3]
        · simp [setServoPosition, h1, h2, h3] at h

/-- Witness for C3 against `busyOutputStatus`: a failing and a succeeding
display write; a failing (driver down) and a succeeding (empty pattern) LED
write; a relay write with an out-of-range index and a succeeding relay
write at index 0; a servo write with an out-of-range angle and a succeeding
servo write of 90 degrees at index 0. -/
theorem actuator_failure_components_witness :
    (updateDisplay false busyOutputStatus).1
      = { busyOutputStatus with displayActive := false }
    ∧ (updateDisplay true busyOutputStatus).1
      = { busyOutputStatus with displayActive := true }
    ∧ (setLEDPattern false [] busyOutputStatus).1
      = { busyOutputStatus with ledsActive := false }
    ∧ (setLEDPattern true [] busyOutputStatus).1
      = { busyOutputStatus with ledsActive := true }
    ∧ (setHighPowerOutput true 7 true busyOutputStatus).1 = busyOutputStatus
    ∧ (setHighPowerOutput true 0 true busyOutputStatus).1
      = { busyOutputStatus with
          highPowerState := busyOutputStatus.highPowerState.set (0 : ℤ).toNat true }
    ∧ (setServoPosition true 0 200 busyOutputStatus).1 = busyOutputStatus
    ∧ (setServoPosition true 0 90 busyOutputStatus).1
      = { busyOutputStatus with
          servoPositions := busyOutputStatus.servoPositions.set (0 : ℤ).toNat 90 } :=
  ⟨(actuator_failure_components busyOutputStatus false [] 7 true 200).1.1.1,
   (actuator_failure_components busyOutputStatus false [] 7 true 200).1.2.1,
   (actuator_failure_components busyOutputStatus false [] 7 true 200).2.1.1 (by decide),
   (actuator_failure_components busyOutputStatus true [] 7 true 200).2.1.2 (by decide),
   (actuator_failure_components busyOutputStatus true [] 7 true 200).2.2.1.1 (by decide),
   (actuator_failure_components busyOutputStatus true [] 0 true 200).2.2.1.2 (by decide),
   (actuator_failure_components busyOutputStatus true [] 0 true 200).2.2.2.1 (by decide),
   (actuator_failure_components busyOutputStatus true [] 0 true 90).2.2.2.2 (by decide)⟩

/-- C4 counterexample to the claim as stated: after `startMonitoring` and
two timer fires with no tick completion in between, two tick bodies are in
flight — the second fire neither skips nor queues — and the metric registry
(`initializeMetrics` registers exactly these ten names) contains no
skipped-tick metric to increment. -/
theorem monitoring_ticks_overlap_ctrex :
    (loopRun ⟨false, 0⟩
      [LoopEvent.startCall, LoopEvent.timerFire, LoopEvent.timerFire]).ticksInFlight = 2
    ∧ registeredMetricNames.all
        (fun n => !chSubstr "skipped".toList n.toList) = true := by
  decide

/-- C4 (amended): while the interval is active, every timer fire starts a
tick body unconditionally — the interval callback of `startMonitoring`
checks no in-flight guard, so the in-flight count always increments and
overlapping ticks are possible — and the service registers no skipped-tick
metric. -/
theorem timerFire_unconditional (s : LoopState)
    (h : s.intervalActive = true) :
    (loopStep s LoopEvent.timerFire).ticksInFlight = s.ticksInFlight + 1
    ∧ registeredMetricNames.all
        (fun n => !chSubstr "skipped".toList n.toList) = true := by
  constructor
  · simp [loopStep, h]
  · decide

/-- Witness for C4 at a state with one tick already in flight. -/
theorem timerFire_unconditional_witness :
    (loopStep ⟨true, 1⟩ LoopEvent.timerFire).ticksInFlight = 1 + 1
    ∧ registeredMetricNames.all
        (fun n => !chSubstr "skipped".toList n.toList) = true :=
  timerFire_unconditional ⟨true, 1⟩ rfl

/-- The retry loop performs at most `remaining` invocations. -/
theorem retryGo_calls_le (op : ℕ → Except E A) (sr : E → Bool) (d : ℕ) :
    ∀ (r a : ℕ), (retryGo op sr d a r).calls ≤ r := by
  intro r
  induction r with
  | zero => intro a; simp [retryGo]
  | succ n ih =>
    intro a
    simp only [retryGo]
    split
    · simp
    · split
      · simp
      · simpa using Nat.succ_le_succ (ih (a + 1))

/-- If attempts `a, …, k-1` fail with retryable errors and attempt `k`
fails with a non-retryable one, the loop started at attempt `a` with `r`
iterations available (enough to reach `k`) stops at attempt `k`: it throws
that error and performs exactly `k - a + 1` invocations. -/
theorem retryGo_nonretryable (op : ℕ → Except E A) (sr : E → Bool) (d : ℕ) :
    ∀ (r a k : ℕ) (e : E), a ≤ k → k < a + r →
      (∀ j, a ≤ j → j < k → ∃ ej, op j = Except.error ej ∧ sr ej = true) →
      op k = Except.error e → sr e = false →
      (retryGo op sr d a r).result = Except.error (some e)
      ∧ (retryGo op sr d a r).calls = k - a + 1 := by
  intro r
  induction r with
  | zero => intro a k e hak hkr; omega
  | succ n ih =>
    intro a k e hak hkr hpre hk hsr
    simp only [retryGo]
    rcases Nat.eq_or_lt_of_le hak with rfl | hlt
    · rw [hk]
      simp [hsr]
    · obtain ⟨ea, hea, hsra⟩ := hpre a (Nat.le_refl a) hlt
      have hn : ¬ n = 0 := by omega
      have hrec := ih (a + 1) k e (by omega) (by omega)
        (fun j hj1 hj2 => hpre j (by omega) hj2) hk hsr
      rw [hea]
      simp [hsra, hn, hrec.1, hrec.2]
      omega

/-- C5: `createRetryableOperation` invokes the operation at most
`maxRetries` times; and when an attempt fails with an error the policy's
`shouldRetry` classifies non-retryable (all earlier attempts having failed
retryably, so that the loop reaches it), that error propagates immediately:
the run's outcome is that very error and the operation is never invoked
again (exactly `k` invocations for a non-retryable failure at attempt `k`). -/
theorem createRetryableOperation_bounds (op : ℕ → Except E A)
    (sr : E → Bool) (d mr : ℕ) :
    (createRetryableOperation op sr d mr).calls ≤ mr
    ∧ (∀ (k : ℕ) (e : E), 1 ≤ k → k ≤ mr →
        (∀ j, 1 ≤ j → j < k → ∃ ej, op j = Except.error ej ∧ sr ej = true) →
        op k = Except.error e → sr e = false →
        (createRetryableOperation op sr d mr).result = Except.error (some e)
        ∧ (createRetryableOperation op sr d mr).calls = k) := by
  constructor
  · exact retryGo_calls_le op sr d mr 1
  · intro k e hk1 hkmr hpre hk hsr
    have h := retryGo_nonretryable op sr d mr 1 k e hk1 (by omega) hpre hk hsr
    refine ⟨h.1, ?_⟩
    show (retryGo op sr d 1 mr).calls = k
    rw [h.2]
    omega

/-- Witness for C5: first attempt fails retryably, second fails with the
non-retryable `fatal`; with `maxRetries = 3` the run stops after exactly 2
invocations and propagates `fatal`. -/
theorem createRetryableOperation_bounds_witness :
    (createRetryableOperation c5Op c5Retryable 1000 3).result
      = Except.error (some "fatal")
    ∧ (createRetryableOperation c5Op c5Retryable 1000 3).calls = 2 :=
  (createRetryableOperation_bounds c5Op c5Retryable 1000 3).2 2 "fatal"
    (by omega) (by omega)
    (fun j hj1 hj2 => by
      have hj : j = 1 := by omega
      subst hj
      exact ⟨"transient", rfl, by decide⟩)
    rfl (by decide)

/-- When every attempt fails retryably, the loop started at attempt `a`
with `r ≥ 1` iterations uses them all: it makes `r` invocations, waits
`d * attempt` after each non-final attempt (`attempt = a, …, a + r - 2`),
and finally throws the last attempt's error raw. -/
theorem retryGo_all_fail (op : ℕ → Except E A) (sr : E → Bool) (d : ℕ)
    (errOf : ℕ → E)
    (hop : ∀ j, op j = Except.error (errOf j))
    (hsr : ∀ j, sr (errOf j) = true) :
    ∀ (r a : ℕ), 1 ≤ r →
      (retryGo op sr d a r).result = Except.error (some (errOf (a + r - 1)))
      ∧ (retryGo op sr d a r).calls = r
      ∧ (retryGo op sr d a r).delays
        = (List.range (r - 1)).map (fun i => d * (a + i)) := by
  intro r
  induction r with
  | zero => intro a h; omega
  | succ n ih =>
    intro a _
    simp only [retryGo]
    rw [hop a]
    by_cases hn : n = 0
    · subst hn
      simp [hsr a]
    · have hrec := ih (a + 1) (by omega)
      have h1 : a + 1 + n - 1 = a + n := by omega
      rw [h1] at hrec
      have h2 : a + (n + 1) - 1 = a + n := by omega
      rw [h2]
      obtain ⟨m, rfl⟩ : ∃ m, n = m + 1 := ⟨n - 1, by omega⟩
      simp [hsr a, hrec.1, hrec.2.1, hrec.2.2, List.range_succ_eq_map,
        List.map_map]
      intro i _
      omega

/-- C6 (amended): when every attempt fails with a retryable error, the
executor waits `baseDelay * attemptNumber` between attempts — linear
backoff, delays `d*1, …, d*(maxRetries-1)` in order — exhausts all
`maxRetries` invocations, and then propagates the last attempt's error
itself, raw: the source has no `OperationFailed` wrapper type and rethrows
`lastError` unchanged. -/
theorem retry_exhaustion_linear_backoff (op : ℕ → Except E A)
    (sr : E → Bool) (d mr : ℕ) (errOf : ℕ → E)
    (hmr : 1 ≤ mr)
    (hop : ∀ j, op j = Except.error (errOf j))
    (hsr : ∀ j, sr (errOf j) = true) :
    (createRetryableOperation op sr d mr).delays
      = (List.range (mr - 1)).map (fun i => d * (1 + i))
    ∧ (createRetryableOperation op sr d mr).calls = mr
    ∧ (createRetryableOperation op sr d mr).result
      = Except.error (some (errOf mr)) := by
  have h := retryGo_all_fail op sr d errOf hop hsr mr 1 hmr
  have h1 : 1 + mr - 1 = mr := by omega
  rw [h1] at h
  exact ⟨h.2.2, h.2.1, h.1⟩

/-- Witness for C6: an operation failing with `boom` on every attempt,
`baseDelay = 5`, `maxRetries = 3`: waits `5, 10`, three invocations, and
the raw `boom` comes back. -/
theorem retry_exhaustion_linear_backoff_witness :
    (createRetryableOperation c6Op (fun _ => true) 5 3).delays
      = (List.range (3 - 1)).map (fun i => 5 * (1 + i))
    ∧ (createRetryableOperation c6Op (fun _ => true) 5 3).calls = 3
    ∧ (createRetryableOperation c6Op (fun _ => true) 5 3).result
      = Except.error (some "boom") :=
  retry_exhaustion_linear_backoff c6Op (fun _ => true) 5 3 (fun _ => "boom")
    (by omega) (fun _ => rfl) (fun _ => rfl)

/-- C6 counterexample to the claim as stated: after exhausting the budget
the executor propagates the raw last error (`boom`) — there is no
`OperationFailed` wrapping anywhere in the source (`throw lastError`). -/
theorem retry_exhaustion_raw_error_ctrex :
    (createRetryableOperation c6Op (fun _ => true) 5 3).result
      = Except.error (some "boom")
    ∧ (createRetryableOperation c6Op (fun _ => true) 5 3).delays = [5, 10] := by
  exact ⟨rfl, rfl⟩

/-- C7: `rateLimit` allows a call iff strictly fewer than `limit` stored
timestamps lie within the trailing window (`timestamp ≥ now - windowMs`),
and exactly when it allows it records the call's timestamp (denials leave
the store untouched); and the claim's scenario with `limit = 3`,
`window = 60000 ms`: calls at t=0, 10000, 20000 are allowed, the call at
t=25000 is denied, and the call at t=61000 is allowed again because the
t=0 entry has left the window. -/
theorem rateLimit_sliding_window :
    (∀ (entries : List ℤ) (limit : ℕ) (windowMs now : ℤ),
      ((rateLimit entries limit windowMs now).1 = true ↔
        (entries.filter fun t => decide (now - windowMs ≤ t)).length < limit)
      ∧ (rateLimit entries limit windowMs now).2
        = (if (entries.filter fun t => decide (now - windowMs ≤ t)).length < limit
            then entries ++ [now] else entries))
    ∧ rateLimit [] 3 60000 0 = (true, [0])
    ∧ rateLimit [0] 3 60000 10000 = (true, [0, 10000])
    ∧ rateLimit [0, 10000] 3 60000 20000 = (true, [0, 10000, 20000])
    ∧ rateLimit [0, 10000, 20000] 3 60000 25000 = (false, [0, 10000, 20000])
    ∧ rateLimit [0, 10000, 20000] 3 60000 61000
        = (true, [0, 10000, 20000, 61000]) := by
  refine ⟨?_, by decide, by decide, by decide, by decide, by decide⟩
  intro entries limit windowMs now
  constructor
  · simp only [rateLimit]
    split_ifs with h
    · exact iff_of_false (by simp) (by omega)
    · exact iff_of_true rfl (by omega)
  · simp only [rateLimit]
    split_ifs with h h2 h2
    · omega
    · rfl
    · have hrem : ((entries.filter fun t => decide (now - windowMs ≤ t)).filter
          fun t => decide (t < now - windowMs)) = [] := by
        rw [List.filter_eq_nil_iff]
        intro t ht
        have hmem := List.mem_filter.mp ht
        simp only [decide_eq_true_eq] at hmem ⊢
        omega
      rw [hrem]
      simp
    · omega

/-- C8: when the storage query of `rateLimit` itself errors, the catch
handler resolves `true` — the limiter fails open — rather than denying the
call, and the promise resolves rather than rejecting (the run is total and
returns a boolean). -/
theorem rateLimit_fails_open :
    ∀ (limit : ℕ) (windowMs now : ℤ),
      rateLimitRun (Except.error ()) limit windowMs now = true := by
  intro limit windowMs now
  rfl

/-- C9 at the failing input: after a successful first tick, a second tick
whose sensor read throws leaves the actuator state and the stored alert
batch exactly as the first tick left them, emits no reading/alerts events
but one error event, keeps the interval alive — and leaves the
`kitronik_reading_errors_total` counter unchanged at 0: the catch handler
only emits, and no `inc()` of `readingErrors` exists in the source. -/
theorem tick_read_failure_behavior :
    c9SecondTick.out = c9FirstTick.out
    ∧ c9SecondTick.mon.alerts = c9FirstTick.mon.alerts
    ∧ c9SecondTick.events.readingEmitted = none
    ∧ c9SecondTick.events.alertsEmitted = none
    ∧ c9SecondTick.events.errorEmitted = true
    ∧ c9SecondTick.mon.readingErrors = c9FirstTick.mon.readingErrors
    ∧ c9FirstTick.mon.readingErrors = 0
    ∧ (loopStep ⟨true, 1⟩ LoopEvent.tickComplete).intervalActive = true :=
  ⟨rfl, rfl, rfl, rfl, rfl, rfl, rfl, rfl⟩

/-- C10: a tick whose sensor read throws leaves the stored alert batch
untouched — `getAlerts` afterwards returns exactly what it returned before
the failing tick — while a successful tick replaces the batch with the
alerts computed from its own reading.  (In the embedded pipeline the read
is the only stage whose exception reaches the interval callback's catch
handler: `checkConditions` and `updateMetrics` are total, and
`updateOutputs` catches its own failures.) -/
theorem getAlerts_preserved_on_failed_tick :
    (∀ (env : ActuatorEnv) (m : MonState) (o : OutputStatus),
      getAlerts (tick (Except.error ()) env m o).mon = getAlerts m)
    ∧ (∀ (env : ActuatorEnv) (m : MonState) (o : OutputStatus)
        (data : SensorReading),
      (tick (Except.ok data) env m o).mon.alerts
        = checkConditions m.thresholds data) :=
  ⟨fun _ _ _ => rfl, fun _ _ _ _ => rfl⟩

end Gusty
